import Mathlib

/-!
Verification development for the MindBot VR browser client
(src/static/app.js, src/backend/static/app.js, src/static/admin.js).

The JavaScript client is shallowly embedded: JS numbers are modelled as
exact rationals (Rat) for vitals and animation arithmetic, and as Nat
for millisecond timestamps (Date.now); JS arrays are Lean lists; the
mutable module-level state (lastRiskLevel, lastBeepAt, sessionId, the
pulse chart arrays, DOM text/class/style slots) is threaded explicitly
through state-passing functions.  Each definition mirrors the source
function of the same name.
-/

/-- Components of a wall-clock reading, as obtained from
`new Date()` via getHours / getMinutes / getSeconds in pushPulse. -/
structure JsTime where
  hours : Nat
  minutes : Nat
  seconds : Nat
deriving DecidableEq

/-- Model of `String(n).padStart(2, "0")` for a natural number n:
if the decimal rendering is already at least 2 characters it is kept,
otherwise a single "0" is prefixed (toString of a Nat is never empty). -/
def pad2 (n : Nat) : String :=
  let s := toString n
  if s.length < 2 then "0" ++ s else s

/-- The HH:MM:SS label built at the top of pushPulse. -/
def timeLabel (t : JsTime) : String :=
  pad2 t.hours ++ ":" ++ pad2 t.minutes ++ ":" ++ pad2 t.seconds

/-- The two module-level chart arrays of app.js:
`const pulseSeries = []` and `const pulseLabels = []`. -/
structure PulseChartState where
  pulseLabels : List String
  pulseSeries : List Rat
deriving DecidableEq

/-- The empty initial chart state. -/
def initChartState : PulseChartState := ⟨[], []⟩

/-- The eviction loop of pushPulse:
`while (pulseSeries.length > maxPoints) { pulseSeries.shift(); pulseLabels.shift(); }`.
Shifting removes the front element of both arrays. -/
def evictLoop (maxPoints : Nat) (labels : List String) (series : List Rat) :
    List String × List Rat :=
  if series.length > maxPoints then
    evictLoop maxPoints labels.tail series.tail
  else
    (labels, series)
termination_by series.length
decreasing_by
  simp only [List.length_tail]
  omega

/-- pushPulse with the capacity as a parameter: appends the wall-clock
label and the pulse value, then evicts from the front while the series
exceeds maxPoints.  src/static/app.js uses maxPoints = 60,
src/backend/static/app.js uses maxPoints = 30. -/
def pushPulseAt (maxPoints : Nat) (t : JsTime) (pulse : Rat)
    (s : PulseChartState) : PulseChartState :=
  let label := timeLabel t
  let labels := s.pulseLabels ++ [label]
  let series := s.pulseSeries ++ [pulse]
  let lv := evictLoop maxPoints labels series
  ⟨lv.1, lv.2⟩

/-- pushPulse of src/static/app.js (maxPoints = 60). -/
def pushPulse : JsTime → Rat → PulseChartState → PulseChartState :=
  pushPulseAt 60

/-- pushPulse of src/backend/static/app.js (maxPoints = 30). -/
def pushPulseBackend : JsTime → Rat → PulseChartState → PulseChartState :=
  pushPulseAt 30

/-- A sequence of push calls (oldest first) against a given push
function, threading the chart state. -/
def runPushes (push : JsTime → Rat → PulseChartState → PulseChartState) :
    List (JsTime × Rat) → PulseChartState → PulseChartState
  | [], s => s
  | p :: ps, s => runPushes push ps (push p.1 p.2 s)

/-- One Vitals Snapshot as consumed from the backend:
{pulse_bpm, temperature_c, oxygen_percent, air_quality_ppm}. -/
structure Vitals where
  pulse_bpm : Rat
  temperature_c : Rat
  oxygen_percent : Rat
  air_quality_ppm : Rat
deriving DecidableEq

/-- One alert pill: its textContent and its className. -/
structure Pill where
  text : String
  className : String
deriving DecidableEq

/-- applyAlerts of src/static/app.js: returns (pulse pill, temp pill). -/
def applyAlerts (vitals : Vitals) : Pill × Pill :=
  ( if vitals.pulse_bpm > 110 then ⟨"High", "pill pill-warn"⟩
    else ⟨"Normal", "pill pill-ok"⟩,
    if vitals.temperature_c > 38 then ⟨"Fever", "pill pill-danger"⟩
    else ⟨"Normal", "pill pill-ok"⟩ )

/-- applyAlerts of src/backend/static/app.js: identical except the
pulse pill text is "Warning" instead of "High". -/
def applyAlertsBackend (vitals : Vitals) : Pill × Pill :=
  ( if vitals.pulse_bpm > 110 then ⟨"Warning", "pill pill-warn"⟩
    else ⟨"Normal", "pill pill-ok"⟩,
    if vitals.temperature_c > 38 then ⟨"Fever", "pill pill-danger"⟩
    else ⟨"Normal", "pill pill-ok"⟩ )

-- Auxiliary lemmas about the eviction loop.

theorem evictLoop_eq (maxPoints : Nat) :
    ∀ (n : Nat) (labels : List String) (series : List Rat),
      series.length = n → labels.length = series.length →
      evictLoop maxPoints labels series =
        (labels.drop (labels.length - maxPoints),
         series.drop (series.length - maxPoints)) := by
  intro n
  induction n using Nat.strong_induction_on with
  | _ n ih =>
    intro labels series hn hlen
    rw [evictLoop]
    split
    · rename_i hgt
      have htail : series.tail.length = series.length - 1 := List.length_tail _
      have hlt : series.length - 1 < n := by omega
      have hlen2 : labels.tail.length = series.tail.length := by
        simp only [List.length_tail]; omega
      rw [ih (series.length - 1) (by omega) labels.tail series.tail (by omega) hlen2]
      have h1 : labels.tail.drop (labels.tail.length - maxPoints) =
          labels.drop (labels.length - maxPoints) := by
        rw [← List.drop_one, List.drop_drop]
        congr 1
        have hd : (labels.drop 1).length = labels.length - 1 := by simp
        omega
      have h2 : series.tail.drop (series.tail.length - maxPoints) =
          series.drop (series.length - maxPoints) := by
        rw [← List.drop_one, List.drop_drop]
        congr 1
        have hd : (series.drop 1).length = series.length - 1 := by simp
        omega
      rw [h1, h2]
    · rename_i hle
      have : series.length ≤ maxPoints := by omega
      rw [Nat.sub_eq_zero_of_le this, Nat.sub_eq_zero_of_le (by omega : labels.length ≤ maxPoints)]
      simp

theorem pushPulseAt_eq (maxPoints : Nat) (t : JsTime) (pulse : Rat)
    (s : PulseChartState) (hlen : s.pulseLabels.length = s.pulseSeries.length) :
    pushPulseAt maxPoints t pulse s =
      ⟨(s.pulseLabels ++ [timeLabel t]).drop (s.pulseSeries.length + 1 - maxPoints),
       (s.pulseSeries ++ [pulse]).drop (s.pulseSeries.length + 1 - maxPoints)⟩ := by
  simp only [pushPulseAt]
  rw [evictLoop_eq maxPoints (s.pulseSeries ++ [pulse]).length _ _ rfl
      (by simp [hlen])]
  simp [hlen]

theorem drop_append_drop {α : Type} (l r : List α) (d₁ d₂ : Nat)
    (h : d₁ ≤ l.length) :
    (l.drop d₁ ++ r).drop d₂ = (l ++ r).drop (d₁ + d₂) := by
  rw [← List.drop_append_of_le_length h, List.drop_drop]

theorem runPushes_eq (maxPoints : Nat) :
    ∀ (ps : List (JsTime × Rat)) (s : PulseChartState),
      s.pulseLabels.length = s.pulseSeries.length →
      s.pulseSeries.length ≤ maxPoints →
      (runPushes (pushPulseAt maxPoints) ps s).pulseSeries =
          (s.pulseSeries ++ ps.map Prod.snd).drop
            (s.pulseSeries.length + ps.length - maxPoints) ∧
      (runPushes (pushPulseAt maxPoints) ps s).pulseLabels =
          (s.pulseLabels ++ ps.map (fun p => timeLabel p.1)).drop
            (s.pulseSeries.length + ps.length - maxPoints) ∧
      (runPushes (pushPulseAt maxPoints) ps s).pulseLabels.length =
          (runPushes (pushPulseAt maxPoints) ps s).pulseSeries.length ∧
      (runPushes (pushPulseAt maxPoints) ps s).pulseSeries.length ≤ maxPoints := by
  intro ps
  induction ps with
  | nil =>
    intro s hlen hle
    simp [runPushes, Nat.sub_eq_zero_of_le hle, hlen, hle]
  | cons p ps ih =>
    intro s hlen hle
    have hpush := pushPulseAt_eq maxPoints p.1 p.2 s hlen
    simp only [runPushes]
    rw [hpush]
    have hlab :
        (PulseChartState.mk
          ((s.pulseLabels ++ [timeLabel p.1]).drop (s.pulseSeries.length + 1 - maxPoints))
          ((s.pulseSeries ++ [p.2]).drop (s.pulseSeries.length + 1 - maxPoints))).pulseLabels.length =
        (PulseChartState.mk
          ((s.pulseLabels ++ [timeLabel p.1]).drop (s.pulseSeries.length + 1 - maxPoints))
          ((s.pulseSeries ++ [p.2]).drop (s.pulseSeries.length + 1 - maxPoints))).pulseSeries.length := by
      simp [hlen]
    have hcap :
        (PulseChartState.mk
          ((s.pulseLabels ++ [timeLabel p.1]).drop (s.pulseSeries.length + 1 - maxPoints))
          ((s.pulseSeries ++ [p.2]).drop (s.pulseSeries.length + 1 - maxPoints))).pulseSeries.length ≤
          maxPoints := by
      simp only [List.length_drop, List.length_append, List.length_singleton]
      omega
    obtain ⟨h1, h2, h3, h4⟩ := ih _ hlab hcap
    dsimp only at h1 h2 h3 h4
    refine ⟨?_, ?_, h3, h4⟩
    · rw [h1, drop_append_drop (s.pulseSeries ++ [p.2]) (ps.map Prod.snd)
        (s.pulseSeries.length + 1 - maxPoints) _
        (by simp only [List.length_append, List.length_singleton]; omega)]
      rw [List.append_assoc, List.singleton_append]
      congr 1
      simp only [List.length_drop, List.length_append, List.length_singleton,
        List.length_map, List.length_cons, List.length_nil]
      omega
    · rw [h2, drop_append_drop (s.pulseLabels ++ [timeLabel p.1])
        (ps.map (fun p => timeLabel p.1))
        (s.pulseSeries.length + 1 - maxPoints) _
        (by simp only [List.length_append, List.length_singleton]; omega)]
      rw [List.append_assoc, List.singleton_append]
      congr 1
      simp only [List.length_drop, List.length_append, List.length_singleton,
        List.length_map, List.length_cons, List.length_nil]
      omega

/-- C2: for every sequence of pushPulse calls (starting from the empty
chart arrays), the rolling buffer length stays at most the configured
capacity (60 in src/static/app.js, 30 in src/backend/static/app.js),
the buffer holds exactly the most recently pushed values in insertion
order (oldest evicted first, i.e. it is the suffix of all pushed values
of length at most the capacity, with the matching suffix of labels),
and pulseLabels and pulseSeries always have equal length. -/
theorem pushPulse_rolling_buffer (ps : List (JsTime × Rat)) :
    ((runPushes pushPulse ps initChartState).pulseSeries =
        (ps.map Prod.snd).drop (ps.length - 60) ∧
      (runPushes pushPulse ps initChartState).pulseLabels =
        (ps.map (fun p => timeLabel p.1)).drop (ps.length - 60) ∧
      (runPushes pushPulse ps initChartState).pulseSeries.length ≤ 60 ∧
      (runPushes pushPulse ps initChartState).pulseLabels.length =
        (runPushes pushPulse ps initChartState).pulseSeries.length) ∧
    ((runPushes pushPulseBackend ps initChartState).pulseSeries =
        (ps.map Prod.snd).drop (ps.length - 30) ∧
      (runPushes pushPulseBackend ps initChartState).pulseLabels =
        (ps.map (fun p => timeLabel p.1)).drop (ps.length - 30) ∧
      (runPushes pushPulseBackend ps initChartState).pulseSeries.length ≤ 30 ∧
      (runPushes pushPulseBackend ps initChartState).pulseLabels.length =
        (runPushes pushPulseBackend ps initChartState).pulseSeries.length) := by
  have h60 := runPushes_eq 60 ps initChartState rfl (by simp [initChartState])
  have h30 := runPushes_eq 30 ps initChartState rfl (by simp [initChartState])
  simp only [initChartState, List.nil_append, List.length_nil, Nat.zero_add] at h60 h30
  have e60 : runPushes pushPulse ps initChartState =
      runPushes (pushPulseAt 60) ps initChartState := rfl
  have e30 : runPushes pushPulseBackend ps initChartState =
      runPushes (pushPulseAt 30) ps initChartState := rfl
  rw [e60, e30]
  exact ⟨⟨h60.1, h60.2.1, h60.2.2.2, h60.2.2.1⟩,
         ⟨h30.1, h30.2.1, h30.2.2.2, h30.2.2.1⟩⟩

/-- C7: applyAlerts sets the pulse pill to "High" (main client) /
"Warning" (backend client) with warn styling exactly when
pulse_bpm > 110 and to "Normal"/ok otherwise, and the temperature pill
to "Fever"/danger exactly when temperature_c > 38 and to "Normal"/ok
otherwise; values exactly at 110 / 38 read Normal. -/
theorem applyAlerts_thresholds :
    (∀ v : Vitals,
      ((applyAlerts v).1 = ⟨"High", "pill pill-warn"⟩ ↔ v.pulse_bpm > 110) ∧
      (¬ v.pulse_bpm > 110 → (applyAlerts v).1 = ⟨"Normal", "pill pill-ok"⟩) ∧
      ((applyAlerts v).2 = ⟨"Fever", "pill pill-danger"⟩ ↔ v.temperature_c > 38) ∧
      (¬ v.temperature_c > 38 → (applyAlerts v).2 = ⟨"Normal", "pill pill-ok"⟩) ∧
      ((applyAlertsBackend v).1 = ⟨"Warning", "pill pill-warn"⟩ ↔ v.pulse_bpm > 110) ∧
      (¬ v.pulse_bpm > 110 → (applyAlertsBackend v).1 = ⟨"Normal", "pill pill-ok"⟩) ∧
      ((applyAlertsBackend v).2 = ⟨"Fever", "pill pill-danger"⟩ ↔ v.temperature_c > 38) ∧
      (¬ v.temperature_c > 38 → (applyAlertsBackend v).2 = ⟨"Normal", "pill pill-ok"⟩)) ∧
    (∀ v : Vitals, v.pulse_bpm = 110 →
      (applyAlerts v).1 = ⟨"Normal", "pill pill-ok"⟩ ∧
      (applyAlertsBackend v).1 = ⟨"Normal", "pill pill-ok"⟩) ∧
    (∀ v : Vitals, v.temperature_c = 38 →
      (applyAlerts v).2 = ⟨"Normal", "pill pill-ok"⟩ ∧
      (applyAlertsBackend v).2 = ⟨"Normal", "pill pill-ok"⟩) := by
  refine ⟨fun v => ?_, ⟨fun v h => ?_, fun v h => ?_⟩⟩
  · by_cases hp : v.pulse_bpm > 110 <;> by_cases ht : v.temperature_c > 38 <;>
      simp [applyAlerts, applyAlertsBackend, hp, ht]
  · have hp : ¬ v.pulse_bpm > 110 := by rw [h]; norm_num
    simp [applyAlerts, applyAlertsBackend, hp]
  · have ht : ¬ v.temperature_c > 38 := by rw [h]; norm_num
    simp [applyAlerts, applyAlertsBackend, ht]

/-- C7 witness: concrete evaluations of applyAlerts through the claim
theorem, discharging its hypotheses at pulse 125 / boundary 110 and
temperature boundary 38. -/
theorem applyAlerts_thresholds_witness :
    (applyAlerts ⟨125, 37, 97, 40⟩).1 = ⟨"High", "pill pill-warn"⟩ ∧
    (applyAlerts ⟨110, 38, 97, 40⟩).1 = ⟨"Normal", "pill pill-ok"⟩ ∧
    (applyAlerts ⟨110, 38, 97, 40⟩).2 = ⟨"Normal", "pill pill-ok"⟩ ∧
    (applyAlertsBackend ⟨125, 37, 97, 40⟩).1 = ⟨"Warning", "pill pill-warn"⟩ := by
  refine ⟨?_, ?_, ?_, ?_⟩
  · exact ((applyAlerts_thresholds.1 ⟨125, 37, 97, 40⟩).1).mpr (by decide)
  · exact (applyAlerts_thresholds.2.1 ⟨110, 38, 97, 40⟩ (by decide)).1
  · exact (applyAlerts_thresholds.2.2 ⟨110, 38, 97, 40⟩ (by decide)).1
  · exact ((applyAlerts_thresholds.1 ⟨125, 37, 97, 40⟩).2.2.2.2.1).mpr (by decide)

/-- The risk object of a vitals or chat response:
{risk_level, risk_score}, both fields possibly absent.  The JS code
reads these as `(risk || {}).risk_level` and `(risk || {}).risk_score`,
so an absent object behaves as an object with both fields absent. -/
structure RiskIn where
  risk_level : Option String
  risk_score : Option Int
deriving DecidableEq

/-- `String((risk || {}).risk_level || "")`: the incoming level, with
an absent risk object, an absent field or an empty string all mapping
to the empty string. -/
def riskLevelOf (risk : Option RiskIn) : String :=
  match risk with
  | none => ""
  | some r => r.risk_level.getD ""

/-- `Number((risk || {}).risk_score || 0)` with scores modelled as
integers (an absent score, like a zero one, yields 0). -/
def riskScoreOf (risk : Option RiskIn) : Int :=
  match risk with
  | none => 0
  | some r => r.risk_score.getD 0

/-- The mutable UI state touched by setRiskUI: the module-level
lastRiskLevel variable, the risk-related classes on the app element,
and the text/style slots it writes. -/
structure RiskUI where
  lastRiskLevel : String
  appRiskClasses : List String
  riskText : String
  riskMeta : String
  indicatorBg : String
  pillBorderColor : String
  pillColor : String
deriving DecidableEq

/-- State at page load: `let lastRiskLevel = ""` with no risk classes
applied yet (the initial DOM text/style slots are irrelevant to the
claims and start empty here). -/
def initialRiskUI : RiskUI :=
  { lastRiskLevel := ""
    appRiskClasses := []
    riskText := ""
    riskMeta := ""
    indicatorBg := ""
    pillBorderColor := ""
    pillColor := "" }

/-- setRiskUI of src/static/app.js.  Returns the updated UI state and
the audio cue request made on this evaluation (the argument passed to
playIcuAlert, if any).  The class list is rewritten from scratch
because the code first removes all four risk classes and then adds the
ones for the incoming level. -/
def setRiskUI (risk : Option RiskIn) (s : RiskUI) : RiskUI × Option String :=
  let level := riskLevelOf risk
  let score := riskScoreOf risk
  let text := if level = "" then "Risk: --" else "Risk: " ++ level
  let meta := "Score: " ++ toString score
  let style :=
    if level = "Critical" then
      (["risk-critical", "critical"], "rgba(255,61,113,.9)",
       "rgba(255,61,113,.35)", "rgba(255,61,113,.95)")
    else if level = "Medium" then
      (["risk-medium"], "rgba(255,183,3,.9)",
       "rgba(255,183,3,.35)", "rgba(255,183,3,.95)")
    else if level = "Low" then
      (["risk-low"], "rgba(46,229,157,.9)",
       "rgba(46,229,157,.35)", "rgba(46,229,157,.95)")
    else
      ([], "rgba(169,183,223,.7)", "rgba(255,255,255,.14)", "")
  if level ≠ "" ∧ level ≠ s.lastRiskLevel then
    ({ lastRiskLevel := level
       appRiskClasses := style.1
       riskText := text
       riskMeta := meta
       indicatorBg := style.2.1
       pillBorderColor := style.2.2.1
       pillColor := style.2.2.2 },
     if level = "Critical" then some "critical"
     else if level = "Medium" then some "medium"
     else none)
  else
    ({ s with
       appRiskClasses := style.1
       riskText := text
       riskMeta := meta
       indicatorBg := style.2.1
       pillBorderColor := style.2.2.1
       pillColor := style.2.2.2 },
     none)

/-- A sequence of setRiskUI evaluations, returning the final state and
the cue request of each evaluation in order. -/
def runRisk : List (Option RiskIn) → RiskUI → RiskUI × List (Option String)
  | [], s => (s, [])
  | r :: rs, s =>
    let sc := setRiskUI r s
    let rest := runRisk rs sc.1
    (rest.1, sc.2 :: rest.2)

/-- A risk object carrying just a level, as delivered by the backend. -/
def mkRisk (level : String) : Option RiskIn := some ⟨some level, none⟩

-- Helper lemmas about setRiskUI.

theorem setRiskUI_cue_necessary (risk : Option RiskIn) (s : RiskUI)
    (h : (setRiskUI risk s).2 ≠ none) :
    riskLevelOf risk ≠ "" ∧ riskLevelOf risk ≠ s.lastRiskLevel := by
  simp only [setRiskUI] at h
  split at h
  · rename_i hc
    exact hc
  · simp at h

theorem setRiskUI_cue_of_level_eq (risk : Option RiskIn) (s : RiskUI)
    (h : riskLevelOf risk = s.lastRiskLevel) : (setRiskUI risk s).2 = none := by
  simp [setRiskUI, h]

theorem setRiskUI_lastRisk_of_empty (risk : Option RiskIn) (s : RiskUI)
    (h : riskLevelOf risk = "") :
    (setRiskUI risk s).1.lastRiskLevel = s.lastRiskLevel ∧
    (setRiskUI risk s).2 = none ∧
    (setRiskUI risk s).1.appRiskClasses = [] := by
  simp [setRiskUI, h]

theorem setRiskUI_lastRisk_of_present (L : String) (s : RiskUI) (hL : L ≠ "") :
    (setRiskUI (mkRisk L) s).1.lastRiskLevel = L := by
  have hlev : riskLevelOf (mkRisk L) = L := by simp [mkRisk, riskLevelOf]
  by_cases hls : L = s.lastRiskLevel
  · simp only [setRiskUI, hlev, ← hls]
    simp
  · simp [setRiskUI, hlev, hL, hls]

/-- C1: an audio cue request is issued by setRiskUI only when the
incoming risk_level is non-empty and differs from the remembered
lastRiskLevel; the initial evaluation of Low (from the boot state) does
not cue; Low to Medium cues; any transition into Critical cues; a
repeat of the remembered level never cues; and the evaluation sequence
Low, Critical, Critical, Medium from the boot state requests cues
exactly on the first Critical and on the final Medium, never on the
repeated Critical. -/
theorem setRiskUI_cue_gating :
    (∀ (risk : Option RiskIn) (s : RiskUI), (setRiskUI risk s).2 ≠ none →
        riskLevelOf risk ≠ "" ∧ riskLevelOf risk ≠ s.lastRiskLevel) ∧
    (setRiskUI (mkRisk "Low") initialRiskUI).2 = none ∧
    (∀ s : RiskUI, s.lastRiskLevel = "Low" →
        (setRiskUI (mkRisk "Medium") s).2 = some "medium") ∧
    (∀ s : RiskUI, s.lastRiskLevel ≠ "Critical" →
        (setRiskUI (mkRisk "Critical") s).2 = some "critical") ∧
    (∀ (risk : Option RiskIn) (s : RiskUI),
        riskLevelOf risk = s.lastRiskLevel → (setRiskUI risk s).2 = none) ∧
    (runRisk [mkRisk "Low", mkRisk "Critical", mkRisk "Critical", mkRisk "Medium"]
        initialRiskUI).2 = [none, some "critical", none, some "medium"] := by
  refine ⟨setRiskUI_cue_necessary, by decide, fun s h => ?_, fun s h => ?_,
    setRiskUI_cue_of_level_eq, by decide⟩
  · simp [setRiskUI, riskLevelOf, mkRisk, h]
  · simp [setRiskUI, riskLevelOf, mkRisk, Ne.symm h]

/-- C1 witness: the gating facts instantiated at concrete states: a
Critical evaluation from the boot state cues (so the necessity part
applies with a cue present), Low to Medium cues, an evaluation of
Critical from the boot state cues, and a repeated Low does not. -/
theorem setRiskUI_cue_gating_witness :
    ((setRiskUI (mkRisk "Critical") initialRiskUI).2 ≠ none ∧
      riskLevelOf (mkRisk "Critical") ≠ "" ∧
      riskLevelOf (mkRisk "Critical") ≠ initialRiskUI.lastRiskLevel) ∧
    ((setRiskUI (mkRisk "Low") initialRiskUI).1.lastRiskLevel = "Low" ∧
      (setRiskUI (mkRisk "Medium") (setRiskUI (mkRisk "Low") initialRiskUI).1).2 =
        some "medium") ∧
    (initialRiskUI.lastRiskLevel ≠ "Critical" ∧
      (setRiskUI (mkRisk "Critical") initialRiskUI).2 = some "critical") ∧
    (riskLevelOf (mkRisk "Low") =
        (setRiskUI (mkRisk "Low") initialRiskUI).1.lastRiskLevel ∧
      (setRiskUI (mkRisk "Low") (setRiskUI (mkRisk "Low") initialRiskUI).1).2 = none) := by
  refine ⟨⟨by decide, setRiskUI_cue_gating.1 (mkRisk "Critical") initialRiskUI (by decide)⟩,
    ⟨by decide, setRiskUI_cue_gating.2.2.1 _ (by decide)⟩,
    ⟨by decide, setRiskUI_cue_gating.2.2.2.1 initialRiskUI (by decide)⟩,
    ⟨by decide, setRiskUI_cue_gating.2.2.2.2.1 (mkRisk "Low") _ (by decide)⟩⟩

/-- C10: when the incoming risk_level is absent or empty, setRiskUI
leaves the remembered lastRiskLevel unchanged (while clearing all risk
styling and requesting no cue); consequently, for any non-empty level
L, evaluating L, then an absent level, then L again requests no cue on
the final evaluation, because L still equals the remembered level, even
though the middle evaluation cleared the risk classes. -/
theorem setRiskUI_absent_level_keeps_memory :
    (∀ (risk : Option RiskIn) (s : RiskUI), riskLevelOf risk = "" →
        (setRiskUI risk s).1.lastRiskLevel = s.lastRiskLevel ∧
        (setRiskUI risk s).2 = none ∧
        (setRiskUI risk s).1.appRiskClasses = []) ∧
    (∀ (L : String) (s : RiskUI), L ≠ "" →
        (setRiskUI none ((setRiskUI (mkRisk L) s).1)).1.lastRiskLevel = L ∧
        (setRiskUI none ((setRiskUI (mkRisk L) s).1)).1.appRiskClasses = [] ∧
        (setRiskUI (mkRisk L)
            ((setRiskUI none ((setRiskUI (mkRisk L) s).1)).1)).2 = none) := by
  refine ⟨setRiskUI_lastRisk_of_empty, fun L s hL => ?_⟩
  have h1 : (setRiskUI (mkRisk L) s).1.lastRiskLevel = L :=
    setRiskUI_lastRisk_of_present L s hL
  have hempty : riskLevelOf (none : Option RiskIn) = "" := rfl
  obtain ⟨ha, _, hc⟩ := setRiskUI_lastRisk_of_empty none ((setRiskUI (mkRisk L) s).1) hempty
  refine ⟨ha.trans h1, hc, ?_⟩
  apply setRiskUI_cue_of_level_eq
  rw [ha, h1]
  simp [mkRisk, riskLevelOf]

/-- C10 witness: the absent-then-repeat scenario at the concrete level
Low from the boot state, through the claim theorem. -/
theorem setRiskUI_absent_level_keeps_memory_witness :
    (riskLevelOf (none : Option RiskIn) = "" ∧
      (setRiskUI none initialRiskUI).1.lastRiskLevel = initialRiskUI.lastRiskLevel) ∧
    (("Low" : String) ≠ "" ∧
      (setRiskUI (mkRisk "Low")
          ((setRiskUI none ((setRiskUI (mkRisk "Low") initialRiskUI).1)).1)).2 = none) := by
  exact ⟨⟨rfl, (setRiskUI_absent_level_keeps_memory.1 none initialRiskUI rfl).1⟩,
    ⟨by decide, (setRiskUI_absent_level_keeps_memory.2 "Low" initialRiskUI (by decide)).2.2⟩⟩

/-- The tone synthesised by playIcuAlert when it is not debounced and
the audio subsystem works: oscillator frequency and the gain-ramp /
stop offsets (in seconds) relative to the context currentTime. -/
structure Tone where
  freq : Nat
  rampUpAt : Rat
  rampDownAt : Rat
  stopAt : Rat
deriving DecidableEq

/-- The tone parameters chosen from the cue kind in playIcuAlert. -/
def toneFor (kind : String) : Tone :=
  { freq := if kind = "critical" then 880 else 660
    rampUpAt := 2 / 100
    rampDownAt := if kind = "critical" then 28 / 100 else 18 / 100
    stopAt := if kind = "critical" then 30 / 100 else 20 / 100 }

/-- The module-level audio state of src/static/app.js:
`let lastBeepAt = 0`. -/
structure AudioState where
  lastBeepAt : Nat
deriving DecidableEq

/-- Boot value of the audio state. -/
def initAudioState : AudioState := ⟨0⟩

/-- playIcuAlert of src/static/app.js at wall-clock time `now`
(Date.now() in ms).  `synthOk` tells whether the audio-synthesis block
succeeds (false models the try/catch swallowing a throwing
AudioContext).  Returns the new state and the audible tone, if any.
lastBeepAt is updated before synthesis is attempted, so a failed
synthesis still consumes the debounce window.  JS computes
`now - lastBeepAt` with signed arithmetic; with Nat truncated
subtraction a clock reading behind lastBeepAt yields 0 < 1200 and is
debounced, exactly as the negative JS difference would be. -/
def playIcuAlert (now : Nat) (kind : String) (synthOk : Bool)
    (s : AudioState) : AudioState × Option Tone :=
  if now - s.lastBeepAt < 1200 then (s, none)
  else ({ lastBeepAt := now }, if synthOk then some (toneFor kind) else none)

/-- One cue request: its Date.now() timestamp, its kind, and whether
audio synthesis would succeed at that moment. -/
structure AlertReq where
  time : Nat
  kind : String
  synthOk : Bool

/-- Run a sequence of playIcuAlert requests, returning the audibility
flag of each request in order. -/
def runAlerts : List AlertReq → AudioState → List Bool
  | [], _ => []
  | r :: rs, s =>
    let st := playIcuAlert r.time r.kind r.synthOk s
    st.2.isSome :: runAlerts rs st.1

-- Helper lemmas about the debounce window.

theorem playIcuAlert_pass (now : Nat) (kind : String) (synthOk : Bool)
    (s : AudioState) (h : ¬ now - s.lastBeepAt < 1200) :
    playIcuAlert now kind synthOk s =
      ({ lastBeepAt := now }, if synthOk then some (toneFor kind) else none) := by
  simp [playIcuAlert, h]

theorem playIcuAlert_block (now : Nat) (kind : String) (synthOk : Bool)
    (s : AudioState) (h : now - s.lastBeepAt < 1200) :
    playIcuAlert now kind synthOk s = (s, none) := by
  simp [playIcuAlert, h]

/-- If the k-th request of a run is audible, its time is at least
1200ms past the lastBeepAt of the state the run started from. -/
theorem runAlerts_audible_time (rs : List AlertReq) :
    ∀ (s : AudioState) (k : Nat),
      (runAlerts rs s).getD k false = true →
      (rs.map AlertReq.time).getD k 0 ≥ s.lastBeepAt + 1200 := by
  induction rs with
  | nil => intro s k h; simp [runAlerts] at h
  | cons r rs ih =>
    intro s k h
    by_cases hpass : r.time - s.lastBeepAt < 1200
    · rw [runAlerts, playIcuAlert_block r.time r.kind r.synthOk s hpass] at h
      cases k with
      | zero => simp at h
      | succ k =>
        have := ih s k (by simpa using h)
        simp only [List.map_cons, List.getD_cons_succ]
        omega
    · rw [runAlerts, playIcuAlert_pass r.time r.kind r.synthOk s hpass] at h
      cases k with
      | zero =>
        simp only [List.map_cons, List.getD_cons_zero]
        omega
      | succ k =>
        have := ih ⟨r.time⟩ k (by simpa using h)
        simp only [AudioState.mk.injEq] at this
        simp only [List.map_cons, List.getD_cons_succ]
        omega

/-- Any two audible requests of a run are at least 1200ms apart. -/
theorem runAlerts_spacing (rs : List AlertReq) :
    ∀ (s : AudioState) (i j : Nat), i < j →
      (runAlerts rs s).getD i false = true →
      (runAlerts rs s).getD j false = true →
      (rs.map AlertReq.time).getD j 0 ≥ (rs.map AlertReq.time).getD i 0 + 1200 := by
  induction rs with
  | nil => intro s i j hij hi hj; simp [runAlerts] at hi
  | cons r rs ih =>
    intro s i j hij hi hj
    cases i with
    | zero =>
      cases j with
      | zero => omega
      | succ j =>
        by_cases hpass : r.time - s.lastBeepAt < 1200
        · rw [runAlerts, playIcuAlert_block _ _ _ _ hpass] at hi
          simp at hi
        · rw [runAlerts, playIcuAlert_pass _ _ _ _ hpass] at hj
          have := runAlerts_audible_time rs ⟨r.time⟩ j (by simpa using hj)
          dsimp only at this
          simp only [List.map_cons, List.getD_cons_succ, List.getD_cons_zero]
          omega
    | succ i =>
      cases j with
      | zero => omega
      | succ j =>
        rw [runAlerts] at hi hj
        have := ih (playIcuAlert r.time r.kind r.synthOk s).1 i j (by omega)
          (by simpa using hi) (by simpa using hj)
        simpa using this

/-- C3: at least 1200ms elapse between any two audible cues of any
request sequence; and in the concrete scenario of the claim, of two
cue requests issued less than 1200ms apart (here with working audio)
only the first is audible, while a third issued more than 1200ms after
the first is audible again. -/
theorem playIcuAlert_min_interval :
    (∀ (rs : List AlertReq) (s : AudioState) (i j : Nat), i < j →
      (runAlerts rs s).getD i false = true →
      (runAlerts rs s).getD j false = true →
      (rs.map AlertReq.time).getD j 0 ≥ (rs.map AlertReq.time).getD i 0 + 1200) ∧
    (∀ (t₀ t₁ t₂ : Nat) (k₀ k₁ k₂ : String),
      1200 ≤ t₀ → t₀ ≤ t₁ → t₁ < t₀ + 1200 → t₀ + 1200 < t₂ →
      runAlerts [⟨t₀, k₀, true⟩, ⟨t₁, k₁, true⟩, ⟨t₂, k₂, true⟩] initAudioState =
        [true, false, true]) := by
  refine ⟨runAlerts_spacing, fun t₀ t₁ t₂ k₀ k₁ k₂ h0 h01 h1 h2 => ?_⟩
  have e0 : playIcuAlert t₀ k₀ true initAudioState = (⟨t₀⟩, some (toneFor k₀)) := by
    rw [playIcuAlert_pass _ _ _ _ (by simp [initAudioState]; omega)]
    simp
  have e1 : playIcuAlert t₁ k₁ true ⟨t₀⟩ = (⟨t₀⟩, none) :=
    playIcuAlert_block _ _ _ _ (by dsimp only; omega)
  have e2 : playIcuAlert t₂ k₂ true ⟨t₀⟩ = (⟨t₂⟩, some (toneFor k₂)) := by
    rw [playIcuAlert_pass _ _ _ _ (by dsimp only; omega)]
    simp
  simp [runAlerts, e0, e1, e2]

/-- C3 witness: the spacing part applied to a concrete two-request run
(2000ms and 3300ms, both audible, 1300 ≥ 1200 apart), and the concrete
scenario at times 2000 / 2500 / 3300. -/
theorem playIcuAlert_min_interval_witness :
    ((0 : Nat) < 1 ∧
      (runAlerts [⟨2000, "critical", true⟩, ⟨3300, "medium", true⟩]
          initAudioState).getD 0 false = true ∧
      (runAlerts [⟨2000, "critical", true⟩, ⟨3300, "medium", true⟩]
          initAudioState).getD 1 false = true ∧
      ([(⟨2000, "critical", true⟩ : AlertReq), ⟨3300, "medium", true⟩].map
          AlertReq.time).getD 1 0 ≥
        ([(⟨2000, "critical", true⟩ : AlertReq), ⟨3300, "medium", true⟩].map
          AlertReq.time).getD 0 0 + 1200) ∧
    runAlerts [⟨2000, "critical", true⟩, ⟨2500, "medium", true⟩,
        ⟨3300, "critical", true⟩] initAudioState = [true, false, true] := by
  refine ⟨⟨by decide, by decide, by decide, ?_⟩, ?_⟩
  · exact playIcuAlert_min_interval.1
      [⟨2000, "critical", true⟩, ⟨3300, "medium", true⟩] initAudioState 0 1
      (by decide) (by decide) (by decide)
  · exact playIcuAlert_min_interval.2 2000 2500 3300 "critical" "medium" "critical"
      (by decide) (by decide) (by decide) (by decide)

/-- C9: playIcuAlert records lastBeepAt before attempting synthesis, so
a request whose synthesis throws (synthOk = false) produces no sound
but still consumes the debounce window: any request within 1200ms of
the failed one is suppressed. -/
theorem playIcuAlert_failed_synth_consumes_window :
    ∀ (now : Nat) (kind : String) (s : AudioState),
      ¬ now - s.lastBeepAt < 1200 →
      playIcuAlert now kind false s = ({ lastBeepAt := now }, none) ∧
      (∀ (t : Nat) (kind₂ : String) (ok : Bool), t - now < 1200 →
        playIcuAlert t kind₂ ok { lastBeepAt := now } = ({ lastBeepAt := now }, none)) := by
  intro now kind s h
  refine ⟨?_, fun t kind₂ ok ht => ?_⟩
  · rw [playIcuAlert_pass _ _ _ _ h]
    simp
  · exact playIcuAlert_block _ _ _ _ (by dsimp only; omega)

/-- C9 witness: a failed cue at 1500ms from the boot state records the
timestamp and silences a working cue at 2000ms. -/
theorem playIcuAlert_failed_synth_consumes_window_witness :
    (¬ (1500 : Nat) - initAudioState.lastBeepAt < 1200) ∧
    playIcuAlert 1500 "critical" false initAudioState = ({ lastBeepAt := 1500 }, none) ∧
    ((2000 : Nat) - 1500 < 1200) ∧
    playIcuAlert 2000 "critical" true { lastBeepAt := 1500 } =
      ({ lastBeepAt := 1500 }, none) := by
  refine ⟨by decide,
    (playIcuAlert_failed_synth_consumes_window 1500 "critical" initAudioState (by decide)).1,
    by decide,
    (playIcuAlert_failed_synth_consumes_window 1500 "critical" initAudioState
      (by decide)).2 2000 "critical" true (by decide)⟩

/-- The session_id carried by the refreshVitals request:
`const qs = sessionId ? "?session_id=" + ... : ""` attaches the stored
identifier as a query parameter exactly when it is non-empty. -/
def refreshVitalsSessionParam (sessionId : String) : Option String :=
  if sessionId = "" then none else some sessionId

/-- The POST body of sendChat:
`{ message, session_id: sessionId, lat, lng }`. -/
structure ChatBody where
  message : String
  session_id : String
  lat : Rat
  lng : Rat
deriving DecidableEq

/-- The body built at the sendChat fetch in src/static/app.js. -/
def sendChatBody (message sessionId : String) (lat lng : Rat) : ChatBody :=
  { message := message, session_id := sessionId, lat := lat, lng := lng }

/-- The POST body of sos: `{ lat, lng, session_id: sessionId }`. -/
structure SosBody where
  lat : Rat
  lng : Rat
  session_id : String
deriving DecidableEq

/-- The body built at the sos fetch in src/static/app.js. -/
def sosBody (lat lng : Rat) (sessionId : String) : SosBody :=
  { lat := lat, lng := lng, session_id := sessionId }

/-- One completed backend exchange touching the session identifier,
tagged with the endpoint and carrying the session_id field of the
response. -/
inductive SessionOp where
  | vitalsOp (respSessionId : String)
  | chatOp (respSessionId : String)
  | sosOp (respSessionId : String)

/-- The session_id issued by the backend in the response. -/
def SessionOp.respSessionId : SessionOp → String
  | .vitalsOp r => r
  | .chatOp r => r
  | .sosOp r => r

/-- The adoption step common to refreshVitals, sendChat and sos:
`sessionId = data.session_id` (the stored value is replaced by exactly
what the backend issued; the client never invents one). -/
def stepSession (sessionId : String) (op : SessionOp) : String :=
  op.respSessionId

/-- The stored identifier after each exchange of a trace, in order. -/
def runSession (sessionId : String) : List SessionOp → List String
  | [] => []
  | op :: ops =>
    let next := stepSession sessionId op
    next :: runSession next ops

/-- C4: once the stored session identifier is non-empty, the vitals
request attaches it as a query parameter and the chat and SOS bodies
carry it in their session_id field; after every exchange the stored
identifier equals exactly the one issued by the backend in the response
(the client never generates its own, and it changes only to a
backend-issued value); and along any trace whose responses always carry
a non-empty session_id, the stored identifier is never cleared. -/
theorem session_id_discipline :
    (∀ (sid : String), sid ≠ "" →
      refreshVitalsSessionParam sid = some sid ∧
      (∀ (m : String) (la ln : Rat), (sendChatBody m sid la ln).session_id = sid) ∧
      (∀ (la ln : Rat), (sosBody la ln sid).session_id = sid)) ∧
    (∀ (sid : String) (op : SessionOp), stepSession sid op = op.respSessionId) ∧
    (∀ (sid : String) (op : SessionOp),
      stepSession sid op ≠ sid → stepSession sid op = op.respSessionId) ∧
    (∀ (ops : List SessionOp) (sid : String),
      (∀ op ∈ ops, op.respSessionId ≠ "") →
      ∀ s ∈ runSession sid ops, s ≠ "") := by
  refine ⟨fun sid h => ⟨?_, fun m la ln => rfl, fun la ln => rfl⟩,
    fun sid op => rfl, fun sid op _ => rfl, fun ops => ?_⟩
  · simp [refreshVitalsSessionParam, h]
  · induction ops with
    | nil => intro sid hne s hs; simp [runSession] at hs
    | cons op ops ih =>
      intro sid hne s hs
      simp only [runSession, List.mem_cons] at hs
      rcases hs with hs | hs
      · rw [hs]
        exact hne op (by simp)
      · exact ih (stepSession sid op) (fun o ho => hne o (by simp [ho])) s hs

/-- C4 witness: the attachment facts at the concrete identifier "abc",
and the never-cleared property along a concrete two-exchange trace. -/
theorem session_id_discipline_witness :
    (("abc" : String) ≠ "" ∧
      refreshVitalsSessionParam "abc" = some "abc" ∧
      (sendChatBody "hello" "abc" 29 31).session_id = "abc" ∧
      (sosBody 29 31 "abc").session_id = "abc") ∧
    stepSession "abc" (.chatOp "xyz") = "xyz" ∧
    ((∀ op ∈ [SessionOp.vitalsOp "s1", SessionOp.chatOp "s2"],
        SessionOp.respSessionId op ≠ "") ∧
      ∀ s ∈ runSession "abc" [SessionOp.vitalsOp "s1", SessionOp.chatOp "s2"],
        s ≠ "") := by
  have h := session_id_discipline
  refine ⟨⟨by decide, (h.1 "abc" (by decide)).1,
      (h.1 "abc" (by decide)).2.1 "hello" 29 31,
      (h.1 "abc" (by decide)).2.2 29 31⟩,
    h.2.1 "abc" (.chatOp "xyz"),
    ⟨by decide, h.2.2.2 [SessionOp.vitalsOp "s1", SessionOp.chatOp "s2"] "abc"
      (by decide)⟩⟩

/-- Rounding of v.toFixed: the integer n for which n / 10^d is closest
to the value, ties resolved to the larger n (the ECMAScript rule),
i.e. the floor of the value plus one half. -/
def jsRound (q : Rat) : Int := ⌊q + 1 / 2⌋

/-- Left-pad a digit string with zeros to the given length. -/
def padZeros (len : Nat) (s : String) : String :=
  String.mk (List.replicate (len - s.length) '0') ++ s

/-- Model of Number.prototype.toFixed over exact rationals: scale by
10^decimals, round (ties toward the larger integer), and print with
exactly `decimals` fractional digits.  (The IEEE-754 double rounding of
the real toFixed, and its "-0" corner case, are outside this exact
model; the model is used consistently on both sides of every claim.) -/
def jsToFixed (v : Rat) (decimals : Nat) : String :=
  let n := jsRound (v * (10 : Rat) ^ decimals)
  let sgn := if n < 0 then "-" else ""
  let m := n.natAbs
  if decimals = 0 then
    sgn ++ toString m
  else
    sgn ++ toString (m / 10 ^ decimals) ++ "." ++
      padZeros decimals (toString (m % 10 ^ decimals))

/-- A displayed numeric field: its el.dataset.value memo slot (absent
until first set; `Number(el.dataset.value || "0")` reads 0 then) and
its visible textContent. -/
structure NumField where
  datasetValue : Option Rat
  text : String
deriving DecidableEq

/-- The per-call animation record captured by animateNumber before it
schedules frames: the captured start value (`current`), the parsed
target, and the performance.now() timestamp of the call.  The duration
is the fixed 420ms of the source. -/
structure Anim where
  current : Rat
  target : Rat
  start : Rat
deriving DecidableEq

/-- animateNumber of src/static/app.js: reads the memoized value
(default 0), memoizes the new target in el.dataset.value immediately,
and returns the animation record its frame closure captures. -/
def animateNumber (el : NumField) (nextValue : Rat) (startTime : Rat) :
    Anim × NumField :=
  let current := el.datasetValue.getD 0
  let target := nextValue
  ( { current := current, target := target, start := startTime },
    { el with datasetValue := some target } )

/-- The interpolated value of one animation frame at time `now`:
`t = min(1, (now - start) / 420)`, cubic ease-out
`eased = 1 - (1 - t)^3`, `v = current + (target - current) * eased`. -/
def frameValue (a : Anim) (now : Rat) : Rat :=
  let t := min 1 ((now - a.start) / 420)
  let eased := 1 - (1 - t) ^ 3
  a.current + (a.target - a.current) * eased

/-- One execution of the frame callback: writes the interpolated value,
formatted with toFixed, into the textContent of the field.  It never touches
el.dataset.value. -/
def frame (a : Anim) (decimals : Nat) (now : Rat) (el : NumField) : NumField :=
  { el with text := jsToFixed (frameValue a now) decimals }

/-- C6: whenever a frame of an animateNumber call runs at or past
start + 420ms (as the final frame of a completed animation does, since
t is clamped to 1), the displayed text equals the target formatted to
the requested decimals, regardless of the starting value; the target is
memoized in el.dataset.value at call time (frames never change it), so
a second call issued before the first finishes interpolates from the
target of the previous call, not from the stale displayed value. -/
theorem animateNumber_completion_and_memo :
    (∀ (el : NumField) (v startTime now : Rat) (d : Nat) (el₂ : NumField),
      startTime + 420 ≤ now →
      frame (animateNumber el v startTime).1 d now el₂ =
        { el₂ with text := jsToFixed v d }) ∧
    (∀ (el : NumField) (v startTime : Rat),
      (animateNumber el v startTime).2.datasetValue = some v) ∧
    (∀ (a : Anim) (d : Nat) (now : Rat) (el : NumField),
      (frame a d now el).datasetValue = el.datasetValue) ∧
    (∀ (el : NumField) (v₁ t₁ v₂ t₂ : Rat),
      (animateNumber (animateNumber el v₁ t₁).2 v₂ t₂).1.current = v₁) := by
  refine ⟨fun el v startTime now d el₂ h => ?_, fun el v startTime => rfl,
    fun a d now el => rfl, fun el v₁ t₁ v₂ t₂ => rfl⟩
  have ht : min 1 ((now - startTime) / 420) = 1 := by
    rw [min_eq_left_iff]
    rw [le_div_iff₀ (by norm_num)]
    linarith
  simp only [frame, frameValue, animateNumber, ht]
  norm_num

/-- C6 witness: a completed frame of animateNumber toward 7 with one
decimal displays "7.0" (from memo 5), through the claim theorem. -/
theorem animateNumber_completion_and_memo_witness :
    ((0 : Rat) + 420 ≤ 420 ∧
      frame (animateNumber ⟨some 5, "5.0"⟩ 7 0).1 1 420 ⟨some 7, "5.0"⟩ =
        { datasetValue := some 7, text := jsToFixed 7 1 }) ∧
    (animateNumber ⟨some 5, "5.0"⟩ 7 0).2.datasetValue = some 7 ∧
    (animateNumber (animateNumber ⟨none, ""⟩ 3 0).2 9 100).1.current = 3 := by
  refine ⟨⟨by norm_num, ?_⟩,
    animateNumber_completion_and_memo.2.1 ⟨some 5, "5.0"⟩ 7 0,
    animateNumber_completion_and_memo.2.2.2 ⟨none, ""⟩ 3 0 9 100⟩
  exact animateNumber_completion_and_memo.1 ⟨some 5, "5.0"⟩ 7 0 420 1
    ⟨some 7, "5.0"⟩ (by norm_num)

/-- The toast element: hidden flag and text. -/
structure Toast where
  hidden : Bool
  text : String
deriving DecidableEq

/-- setToast of both clients: a falsy (empty) text hides and clears the
toast; any other text is shown. -/
def setToast (text : String) (t : Toast) : Toast :=
  if text = "" then { hidden := true, text := "" }
  else { hidden := false, text := text }

/-- The user-visible notice produced when the boot-time first
refreshVitals of src/static/app.js fails: the rejection propagates out
of `await refreshVitals()` in boot and is caught by
`boot().catch((e) => setToast(...))`. -/
def bootFirstFetchToast (r : Except String Unit) : Option String :=
  match r with
  | .ok _ => none
  | .error e => some ("Boot error: " ++ e)

/-- The user-visible notice produced when the boot-time first
refreshVitals of src/backend/static/app.js fails:
`refreshVitals().catch((e) => setToast(...))`. -/
def bootFirstFetchToastBackend (r : Except String Unit) : Option String :=
  match r with
  | .ok _ => none
  | .error e => some ("Vitals error: " ++ e)

/-- The notice produced by one interval-driven poll,
`setInterval(() => refreshVitals().catch(() => {}), ...)` in both
clients: the catch callback ignores the error and shows nothing. -/
def intervalPollToast (_r : Except String Unit) : Option String := none

/-- The interval loop over a schedule of poll outcomes: every tick runs
a poll (no failure stops the interval), producing its notice. -/
def runIntervalPolls (rs : List (Except String Unit)) : List (Option String) :=
  rs.map intervalPollToast

/-- C8: a failure of the very first boot-time vitals fetch is surfaced
as a visible toast (in both clients, with their respective prefixes),
while every interval-driven poll produces no user-visible notice
whatever its outcome, and the interval keeps executing one poll per
tick (the fixed interval is the only retry mechanism). -/
theorem boot_poll_error_policy :
    (∀ (e : String) (t : Toast),
      bootFirstFetchToast (.error e) = some ("Boot error: " ++ e) ∧
      bootFirstFetchToastBackend (.error e) = some ("Vitals error: " ++ e) ∧
      (setToast ("Boot error: " ++ e) t).hidden = false ∧
      (setToast ("Vitals error: " ++ e) t).hidden = false) ∧
    (∀ rs : List (Except String Unit),
      runIntervalPolls rs = List.replicate rs.length none ∧
      (runIntervalPolls rs).length = rs.length) := by
  constructor
  · intro e t
    refine ⟨rfl, rfl, ?_, ?_⟩
    · have hne : ("Boot error: " ++ e) ≠ "" := by
        intro h
        have hl := congrArg String.length h
        rw [String.length_append] at hl
        have h12 : "Boot error: ".length = 12 := rfl
        have h0 : ("" : String).length = 0 := rfl
        omega
      simp [setToast, hne]
    · have hne : ("Vitals error: " ++ e) ≠ "" := by
        intro h
        have hl := congrArg String.length h
        rw [String.length_append] at hl
        have h14 : "Vitals error: ".length = 14 := rfl
        have h0 : ("" : String).length = 0 := rfl
        omega
      simp [setToast, hne]
  · intro rs
    constructor
    · induction rs with
      | nil => rfl
      | cons r rs ih =>
        simp [runIntervalPolls, intervalPollToast, List.replicate_succ] at ih ⊢
        exact ih
    · simp [runIntervalPolls]

/-- A resolved hospital as consumed from auto_emergency / SOS
responses. -/
structure Hospital where
  name : String
  distance_km : Rat
  eta_minutes : Rat
  phone : String
deriving DecidableEq

/-- The auto_emergency object of a chat response. -/
structure AutoEmergency where
  enabled : Bool
  nearest_hospital : Option Hospital
deriving DecidableEq

/-- The /api/ask_ai response fields the client consumes. -/
structure ChatResponse where
  session_id : String
  reply : String
  vitals : Option Vitals
  risk : Option RiskIn
  auto_emergency : Option AutoEmergency
deriving DecidableEq

/-- The four animated numeric fields and the two alert pills. -/
structure VitalsPanel where
  pulse : NumField
  temp : NumField
  oxygen : NumField
  air : NumField
  pulseAlert : Pill
  tempAlert : Pill
deriving DecidableEq

/-- The vitals block shared by refreshVitals and sendChat:
animateNumber on the four fields, applyAlerts on the pills, pushPulse
of the pulse value.  Returns the new panel, the new chart state, and
the four started animations. -/
def applyVitalsUpdate (perfNow : Rat) (t : JsTime) (v : Vitals)
    (panel : VitalsPanel) (chart : PulseChartState) :
    VitalsPanel × PulseChartState × List Anim :=
  let a1 := animateNumber panel.pulse v.pulse_bpm perfNow
  let a2 := animateNumber panel.temp v.temperature_c perfNow
  let a3 := animateNumber panel.oxygen v.oxygen_percent perfNow
  let a4 := animateNumber panel.air v.air_quality_ppm perfNow
  let pills := applyAlerts v
  ( { pulse := a1.2, temp := a2.2, oxygen := a3.2, air := a4.2,
      pulseAlert := pills.1, tempAlert := pills.2 },
    pushPulse t v.pulse_bpm chart,
    [a1.1, a2.1, a3.1, a4.1] )

/-- The client state touched by the success path of sendChat. -/
structure ChatUiState where
  sessionId : String
  panel : VitalsPanel
  chart : PulseChartState
  riskUI : RiskUI
  sosResultText : String
deriving DecidableEq

/-- The sosResult text rendered on the auto-emergency path:
`AUTO EMERGENCY: name • distance_km km • ETA eta_minutes min • phone`. -/
def autoEmergencyText (h : Hospital) : String :=
  "AUTO EMERGENCY: " ++ h.name ++ " • " ++ toString h.distance_km ++
    " km • ETA " ++ toString h.eta_minutes ++ " min • " ++ h.phone

/-- The success path of sendChat after the reply is revealed: adopt the
session id, apply the optional vitals block, apply the optional risk
via setRiskUI, and if auto_emergency is present with enabled set and a
resolved nearest_hospital, render the result and request a critical
cue.  Returns the new state, the started animations, and the
playIcuAlert requests in call order (the setRiskUI one first). -/
def sendChatSuccess (perfNow : Rat) (t : JsTime) (data : ChatResponse)
    (s : ChatUiState) : ChatUiState × List Anim × List String :=
  let pv :=
    match data.vitals with
    | some v => applyVitalsUpdate perfNow t v s.panel s.chart
    | none => (s.panel, s.chart, [])
  let rc :=
    match data.risk with
    | some r => setRiskUI (some r) s.riskUI
    | none => (s.riskUI, none)
  let auto :=
    match data.auto_emergency with
    | some ae =>
      if ae.enabled then
        match ae.nearest_hospital with
        | some h => (some (autoEmergencyText h), true)
        | none => ((none : Option String), false)
      else (none, false)
    | none => (none, false)
  ( { sessionId := data.session_id
      panel := pv.1
      chart := pv.2.1
      riskUI := rc.1
      sosResultText := auto.1.getD s.sosResultText },
    pv.2.2,
    rc.2.toList ++ (if auto.2 then ["critical"] else []) )

/-- C5: whenever the chat response carries auto_emergency with enabled
set and a resolved nearest_hospital, the success path renders the
emergency result into sosResult and requests a critical audio cue; and
this holds in particular when the accompanying risk level equals the
remembered one, where the normal transition gate of setRiskUI requests
nothing — the critical cue is requested regardless. -/
theorem sendChat_auto_emergency_forces_cue :
    ∀ (perfNow : Rat) (t : JsTime) (data : ChatResponse) (s : ChatUiState)
      (ae : AutoEmergency) (h : Hospital),
      data.auto_emergency = some ae → ae.enabled = true →
      ae.nearest_hospital = some h →
      ((sendChatSuccess perfNow t data s).1.sosResultText = autoEmergencyText h ∧
        "critical" ∈ (sendChatSuccess perfNow t data s).2.2) ∧
      (∀ r : RiskIn, data.risk = some r →
        riskLevelOf (some r) = s.riskUI.lastRiskLevel →
        "critical" ∈ (sendChatSuccess perfNow t data s).2.2 ∧
        (setRiskUI (some r) s.riskUI).2 = none) := by
  intro perfNow t data s ae h hae hen hh
  refine ⟨⟨?_, ?_⟩, fun r hr hlev =>
      ⟨?_, setRiskUI_cue_of_level_eq (some r) s.riskUI hlev⟩⟩ <;>
    simp [sendChatSuccess, hae, hen, hh]

/-- C5 witness: a concrete auto-emergency response whose risk level
equals the remembered Critical level still requests the critical cue
and renders the hospital line, through the claim theorem. -/
theorem sendChat_auto_emergency_forces_cue_witness :
    ((⟨"s2", "help is coming", none, some ⟨some "Critical", some 80⟩,
        some ⟨true, some ⟨"Beni Suef General", 3, 9, "082-123"⟩⟩⟩ :
          ChatResponse).auto_emergency =
        some ⟨true, some ⟨"Beni Suef General", 3, 9, "082-123"⟩⟩ ∧
      (⟨true, some ⟨"Beni Suef General", 3, 9, "082-123"⟩⟩ :
          AutoEmergency).enabled = true ∧
      riskLevelOf (some ⟨some "Critical", some 80⟩) =
        ({ initialRiskUI with lastRiskLevel := "Critical" } : RiskUI).lastRiskLevel) ∧
    "critical" ∈
      (sendChatSuccess 0 ⟨12, 0, 0⟩
        ⟨"s2", "help is coming", none, some ⟨some "Critical", some 80⟩,
          some ⟨true, some ⟨"Beni Suef General", 3, 9, "082-123"⟩⟩⟩
        ⟨"s1", ⟨⟨none, ""⟩, ⟨none, ""⟩, ⟨none, ""⟩, ⟨none, ""⟩,
          ⟨"Normal", "pill pill-ok"⟩, ⟨"Normal", "pill pill-ok"⟩⟩,
          initChartState, { initialRiskUI with lastRiskLevel := "Critical" },
          ""⟩).2.2 ∧
    (setRiskUI (some ⟨some "Critical", some 80⟩)
        { initialRiskUI with lastRiskLevel := "Critical" }).2 = none := by
  refine ⟨⟨rfl, rfl, by decide⟩, ?_⟩
  exact (sendChat_auto_emergency_forces_cue 0 ⟨12, 0, 0⟩
    ⟨"s2", "help is coming", none, some ⟨some "Critical", some 80⟩,
      some ⟨true, some ⟨"Beni Suef General", 3, 9, "082-123"⟩⟩⟩
    ⟨"s1", ⟨⟨none, ""⟩, ⟨none, ""⟩, ⟨none, ""⟩, ⟨none, ""⟩,
      ⟨"Normal", "pill pill-ok"⟩, ⟨"Normal", "pill pill-ok"⟩⟩,
      initChartState, { initialRiskUI with lastRiskLevel := "Critical" }, ""⟩
    ⟨true, some ⟨"Beni Suef General", 3, 9, "082-123"⟩⟩
    ⟨"Beni Suef General", 3, 9, "082-123"⟩ rfl rfl rfl).2
    ⟨some "Critical", some 80⟩ rfl (by decide)
